import Mathlib

/-!
Verification of the adaptive persistence layer and student-identity
heuristic of the jeanacademy repository
(`app/db/adaptive_dao.py`, `app/ingest/adaptive_scanner.py`).

The Python code is shallowly embedded: pure string/regex computations
become Lean functions over `String`/`List Char`; the regexes that appear
literally in the source are embedded as abstract syntax trees and run by
a small backtracking matcher with the same leftmost-first, greedy/lazy
semantics as Python's `re.search`; database calls become explicit state
passing (queries are structured values, the store is a list of rows);
exceptions become `Except`.
-/

namespace JeanAcademy

/-! ## Character and string helpers (ASCII + Latin-1, as used by the source) -/

/-- Lower-casing as Python's `str.lower` behaves on ASCII and Latin-1
letters (the only alphabets the source's filenames and module names use). -/
def latinLower (c : Char) : Char :=
  let n := c.toNat
  if 65 ≤ n ∧ n ≤ 90 then Char.ofNat (n + 32)
  else if 192 ≤ n ∧ n ≤ 222 ∧ n ≠ 215 then Char.ofNat (n + 32)
  else c

/-- Upper-casing on ASCII and Latin-1 letters. -/
def latinUpper (c : Char) : Char :=
  let n := c.toNat
  if 97 ≤ n ∧ n ≤ 122 then Char.ofNat (n - 32)
  else if 224 ≤ n ∧ n ≤ 254 ∧ n ≠ 247 then Char.ofNat (n - 32)
  else c

def pyLower (s : String) : String := String.mk (s.toList.map latinLower)

def pyUpper (s : String) : String := String.mk (s.toList.map latinUpper)

/-- Python's `str.capitalize`: first char upper-cased, rest lower-cased. -/
def pyCapitalize (s : String) : String :=
  match s.toList with
  | [] => ""
  | c :: rest => String.mk (latinUpper c :: rest.map latinLower)

/-- Word character for Python's `\b` (ASCII alphanumerics, underscore and
Latin-1 letters, the character sets relevant to the repository's data). -/
def isWordChar (c : Char) : Bool :=
  c.isAlphanum || c = '_' ||
    (192 ≤ c.toNat && c.toNat ≤ 255 && c.toNat ≠ 215 && c.toNat ≠ 247)

def isWordOpt : Option Char → Bool
  | some c => isWordChar c
  | none => false

/-- Split a char list at every occurrence of `sep`, keeping empty pieces,
like Python `str.split(sep)`. -/
def splitOnChar (sep : Char) : List Char → List (List Char)
  | [] => [[]]
  | c :: t =>
    let r := splitOnChar sep t
    if c = sep then [] :: r
    else
      match r with
      | [] => [[c]]
      | h :: t' => (c :: h) :: t'

/-- Python `email.split('@')[0]`. -/
def localPart (e : String) : String :=
  String.mk ((splitOnChar '@' e.toList).headD [])

/-- Python `str.strip()`. -/
def pyTrim (s : String) : String :=
  String.mk
    (((s.toList.dropWhile Char.isWhitespace).reverse.dropWhile Char.isWhitespace).reverse)

/-- Python `str.replace(a, b)` for one-char `a`, `b` (the only uses in the
source replace a single character by a single character). -/
def replaceChar (a b : Char) (s : String) : String :=
  String.mk (s.toList.map (fun c => if c = a then b else c))

def charsLeading : List Char → List Char → Bool
  | [], _ => true
  | _ :: _, [] => false
  | a :: as, b :: bs => a == b && charsLeading as bs

/-- Python's `needle in hay` substring test. -/
def charsInside (needle : List Char) : List Char → Bool
  | [] => needle.isEmpty
  | c :: t => charsLeading needle (c :: t) || charsInside needle t

/-! ## A small backtracking regex matcher

The source's behaviour is regex-driven, so the regexes appearing in
`adaptive_dao.py` / `adaptive_scanner.py` are embedded as syntax trees and
executed by a fuel-bounded backtracking matcher with Python `re` semantics:
leftmost match, left-biased alternation, greedy (`*`, `+`, `{n,}`) and lazy
(`*?`, `{n,}?`) repetition, one capturing group, lookahead, `\b` and `$`. -/

/-- A character class: a union of inclusive codepoint ranges. -/
structure CClass where
  ranges : List (Nat × Nat)
deriving DecidableEq

def CClass.hasChar (cc : CClass) (c : Char) : Bool :=
  cc.ranges.any (fun r => r.1 ≤ c.toNat && c.toNat ≤ r.2)

/-- Class membership, optionally case-insensitively (re.IGNORECASE). -/
def CClass.matchesChar (cc : CClass) (ic : Bool) (c : Char) : Bool :=
  cc.hasChar c || (ic && (cc.hasChar (latinLower c) || cc.hasChar (latinUpper c)))

inductive RE where
  | eps
  | cls (cc : CClass)
  | seq (a b : RE)
  | alt (a b : RE)
  /-- `r{lo,}` when `hi = none`, `r{lo,hi}` otherwise; `greedy = false` is lazy. -/
  | rep (lo : Nat) (hi : Option Nat) (greedy : Bool) (r : RE)
  /-- capturing group (group 1). -/
  | grp (r : RE)
  /-- lookahead `(?=class)`. -/
  | look (cc : CClass)
  /-- word boundary `\b`. -/
  | bnd
  /-- end anchor `$`. -/
  | eos
deriving DecidableEq

/-- Backtracking matcher in continuation-passing style. `prev` is the char
just before the current position (for `\b`), `cap` the group-1 capture.
Returns the continuation's first success, trying alternatives in the same
order as Python's `re` engine. -/
def mrun (ic : Bool) :
    Nat → RE → Option Char → List Char → Option (List Char) →
    (Option Char → List Char → Option (List Char) → Option α) → Option α
  | 0, _, _, _, _, _ => none
  | _ + 1, .eps, prev, s, cap, k => k prev s cap
  | _ + 1, .cls cc, _, s, cap, k =>
    match s with
    | [] => none
    | c :: rest => if cc.matchesChar ic c then k (some c) rest cap else none
  | fuel + 1, .seq a b, prev, s, cap, k =>
    mrun ic fuel a prev s cap (fun p' s' c' => mrun ic fuel b p' s' c' k)
  | fuel + 1, .alt a b, prev, s, cap, k =>
    (mrun ic fuel a prev s cap k).orElse (fun _ => mrun ic fuel b prev s cap k)
  | fuel + 1, .rep lo hi g r, prev, s, cap, k =>
    match lo with
    | n + 1 =>
      mrun ic fuel r prev s cap (fun p' s' c' =>
        mrun ic fuel (.rep n (hi.map (· - 1)) g r) p' s' c' k)
    | 0 =>
      match hi with
      | some 0 => k prev s cap
      | _ =>
        let more := fun (_ : Unit) =>
          mrun ic fuel r prev s cap (fun p' s' c' =>
            if s'.length < s.length then
              mrun ic fuel (.rep 0 (hi.map (· - 1)) g r) p' s' c' k
            else none)
        if g then (more ()).orElse (fun _ => k prev s cap)
        else (k prev s cap).orElse more
  | fuel + 1, .grp r, prev, s, cap, k =>
    mrun ic fuel r prev s cap (fun p' s' _ =>
      k p' s' (some (s.take (s.length - s'.length))))
  | _ + 1, .look cc, prev, s, cap, k =>
    match s with
    | c :: _ => if cc.matchesChar ic c then k prev s cap else none
    | [] => none
  | _ + 1, .bnd, prev, s, cap, k =>
    if isWordOpt prev != isWordOpt s.head? then k prev s cap else none
  | _ + 1, .eos, prev, s, cap, k =>
    match s with
    | [] => k prev s cap
    | _ :: _ => none

/-- Generous fuel: path depth of the matcher is bounded by the pattern
size plus a few frames per consumed character. -/
def reFuel (s : List Char) : Nat := 200 * (s.length + 2)

/-- `re.search` with access to the split: returns
`(text before the match, matched text, text after, group-1 capture)`
for the leftmost match, or `none`. `anchored` restricts to position 0
(a leading `^`); `prev` is the char before the first tried position. -/
def searchSplit (ic : Bool) (re : RE) (anchored : Bool) :
    Option Char → List Char → Option (List Char × List Char × List Char × Option (List Char))
  | prev, s =>
    match mrun ic (reFuel s) re prev s none
        (fun _ rest cap => some (([] : List Char), s.take (s.length - rest.length), rest, cap)) with
    | some r => some r
    | none =>
      if anchored then none
      else
        match s with
        | [] => none
        | c :: t =>
          (searchSplit ic re anchored (some c) t).map
            (fun r => (c :: r.1, r.2.1, r.2.2.1, r.2.2.2))

/-! ### Regex construction helpers -/

def reC (l : List (Nat × Nat)) : RE := .cls ⟨l⟩

def reChar (c : Char) : RE := reC [(c.toNat, c.toNat)]

def reCatL (l : List RE) : RE := l.foldr .seq .eps

def rePlus (r : RE) : RE := .rep 1 none true r

def reStar (r : RE) : RE := .rep 0 none true r

def reOpt (r : RE) : RE := .rep 0 (some 1) true r

def reLit (s : String) : RE := reCatL (s.toList.map reChar)

/-- `[A-Za-zÀ-ÿ]` (the Latin-1 range `À-ÿ` is taken by codepoint, exactly
as a Python character-class range). -/
def rgLetter : List (Nat × Nat) := [(65, 90), (97, 122), (192, 255)]

/-- `\s` -/
def rgWS : List (Nat × Nat) := [(9, 13), (32, 32)]

/-- `\d` -/
def rgDigit : List (Nat × Nat) := [(48, 57)]

/-- `[_\s-]` -/
def rgSep : List (Nat × Nat) := [(95, 95), (45, 45)] ++ rgWS

/-- `[_\s]` -/
def rgUWS : List (Nat × Nat) := [(95, 95)] ++ rgWS

/-- `[a-zA-Z]` -/
def rgAscii : List (Nat × Nat) := [(65, 90), (97, 122)]

/-- `[A-Za-zÀ-ÿ\s]` -/
def rgLetterWS : List (Nat × Nat) := rgLetter ++ rgWS

/-- `[Mm]` -/
def reM : RE := reC [(77, 77), (109, 109)]

/-- `[óo]` -/
def reOacc : RE := reC [(243, 243), (111, 111)]

/-! ## Module code generation (`AdaptiveDatabaseDAO._generate_module_code`) -/

/-- `[Mm]odulo?\s*(\d+)` (case-sensitive, as in the source). -/
def reModuleNum : RE :=
  reCatL [reM, reLit "odul", reOpt (reChar 'o'), reStar (reC rgWS),
          .grp (rePlus (reC rgDigit))]

/-- Python `str.zfill(2)` on a non-empty digit string. -/
def zfill2 (s : String) : String := if s.length ≥ 2 then s else "0" ++ s

/-- The `special_codes` dict, in its (insertion-ordered) iteration order. -/
def special_codes : List (String × String) :=
  [("correcciones", "CORR"), ("dibujos", "DRAW"), ("lives", "LIVE"),
   ("evaluacion", "EVAL"), ("autoevaluacion", "AUTO"), ("examen", "EXAM"),
   ("tarea", "TASK")]

/-- `AdaptiveDatabaseDAO._generate_module_code`. -/
def generate_module_code (name : String) : String :=
  match searchSplit false reModuleNum false none name.toList with
  | some (_, _, _, some digits) => "MOD" ++ zfill2 (String.mk digits)
  | _ =>
    let name_lower := pyLower name
    match special_codes.find? (fun kc => charsInside kc.1.toList name_lower.toList) with
    | some kc => kc.2
    | none =>
      -- re.sub(r'[^A-Za-z]', '', name) then [:4].upper() or 'MOD0'
      let clean := name.toList.filter Char.isAlpha
      let code := pyUpper (String.mk (clean.take 4))
      if code = "" then "MOD0" else code

/-! ## Name extraction from filenames
(`AdaptiveModuleScanner._extract_name_from_filename`) -/

/-- `[Mm][óo]?dulo?\s*\d+[_\s-]+([A-Za-zÀ-ÿ]+(?:[A-Z][a-z]+)?)` -/
def reExtract1 : RE :=
  reCatL [reM, reOpt reOacc, reLit "dul", reOpt (reChar 'o'), reStar (reC rgWS),
          rePlus (reC rgDigit), rePlus (reC rgSep),
          .grp (.seq (rePlus (reC rgLetter))
                     (reOpt (.seq (reC [(65, 90)]) (rePlus (reC [(97, 122)])))))]

/-- `[Mm][óo]?dulo?[_\s-]*\d+[_\s-]+([a-zA-ZÀ-ÿ]+)` -/
def reExtract2 : RE :=
  reCatL [reM, reOpt reOacc, reLit "dul", reOpt (reChar 'o'), reStar (reC rgSep),
          rePlus (reC rgDigit), rePlus (reC rgSep), .grp (rePlus (reC rgLetter))]

/-- `re.sub(r'([a-z])([A-Z])', r'\1 \2', ...)`: insert a space at each
ASCII camel-case boundary, scanning left to right past each replacement. -/
def camelSplit : List Char → List Char
  | [] => []
  | [c] => [c]
  | a :: b :: rest =>
    if a.isLower && b.isUpper then a :: ' ' :: b :: camelSplit rest
    else a :: camelSplit (b :: rest)

/-- Split at every whitespace char, keeping empty pieces. -/
def splitWS : List Char → List (List Char)
  | [] => [[]]
  | c :: t =>
    let r := splitWS t
    if c.isWhitespace then [] :: r
    else
      match r with
      | [] => [[c]]
      | h :: t' => (c :: h) :: t'

/-- Python `s.split()`: split on whitespace runs, dropping empty pieces. -/
def pyWords (s : String) : List String :=
  ((splitWS s.toList).filter (· ≠ [])).map String.mk

/-- Python `' '.join(l)`. -/
def joinSpace : List String → String
  | [] => ""
  | [s] => s
  | s :: rest => s ++ " " ++ joinSpace rest

/-- `AdaptiveModuleScanner._extract_name_from_filename`. -/
def extract_name_from_filename (filename : String) : Option String :=
  [reExtract1, reExtract2].findSome? (fun p =>
    match searchSplit true p false none filename.toList with
    | some (_, _, _, some g) =>
      let name := String.mk (camelSplit g)
      let name := pyTrim (replaceChar '-' ' ' (replaceChar '_' ' ' name))
      some (joinSpace ((pyWords name).map pyCapitalize))
    | _ => none)

/-! ## Identity resolution (`AdaptiveModuleScanner.identify_student_from_file`) -/

/-- `[A-Za-z0-9._%+-]` -/
def rgEmailLocal : List (Nat × Nat) :=
  [(65, 90), (97, 122), (48, 57), (46, 46), (95, 95), (37, 37), (43, 43), (45, 45)]

/-- `[A-Za-z0-9.-]` -/
def rgEmailDom : List (Nat × Nat) :=
  [(65, 90), (97, 122), (48, 57), (46, 46), (45, 45)]

/-- `[A-Z|a-z]` (the `|` is a literal member, as written in the source). -/
def rgTld : List (Nat × Nat) := [(65, 90), (124, 124), (97, 122)]

/-- `\b[A-Za-z0-9._%+-]+@[A-Za-z0-9.-]+\.[A-Z|a-z]{2,}\b` (`self.email_pattern`). -/
def reEmail : RE :=
  reCatL [.bnd, rePlus (reC rgEmailLocal), reChar '@', rePlus (reC rgEmailDom),
          reChar '.', .rep 2 none true (reC rgTld), .bnd]

/-- The `name_patterns` list of step 4, as `(anchored, pattern)` pairs:
1. `[Mm][óo]dulo?\s*\d+[_\s-]+([A-Za-zÀ-ÿ]{3,}[A-Za-zÀ-ÿ\s]*?)(?:[_\s-]+\d+)?\.?[a-zA-Z]*$`
2. `[Mm]odulo?\s*\d+[_\s-]+([A-Za-zÀ-ÿ]{3,}[A-Za-zÀ-ÿ\s]*?)(?:[_\s-]+\d+)?\.?[a-zA-Z]*$`
3. `[Mm][óo]?dulo?\s*\d+[_\s-]+([A-Za-zÀ-ÿ]+(?:[_\s][A-Za-zÀ-ÿ]+){1,3})(?:[_\s-]+\d+)?`
4. `[Mm][óo]?dulo?\s*\d+[_\s-]+([A-Za-zÀ-ÿ\s]{4,}?)(?:[_\s-]+\d+)?\.?[a-zA-Z]*$`
5. `^([A-Za-zÀ-ÿ]+[_\s-]+[A-Za-zÀ-ÿ]+)`
6. `^([A-Za-zÀ-ÿ\s]{3,}?)[-_\.]`
7. `([A-Za-zÀ-ÿ\s]{3,}?)(?=\d)` -/
def name_patterns : List (Bool × RE) :=
  let tailNumDotExt : List RE :=
    [reOpt (.seq (rePlus (reC rgSep)) (rePlus (reC rgDigit))),
     reOpt (reChar '.'), reStar (reC rgAscii), .eos]
  [ (false, reCatL ([reM, reOacc, reLit "dul", reOpt (reChar 'o'),
       reStar (reC rgWS), rePlus (reC rgDigit), rePlus (reC rgSep),
       .grp (.seq (.rep 3 none true (reC rgLetter)) (.rep 0 none false (reC rgLetterWS)))]
       ++ tailNumDotExt)),
    (false, reCatL ([reM, reLit "odul", reOpt (reChar 'o'),
       reStar (reC rgWS), rePlus (reC rgDigit), rePlus (reC rgSep),
       .grp (.seq (.rep 3 none true (reC rgLetter)) (.rep 0 none false (reC rgLetterWS)))]
       ++ tailNumDotExt)),
    (false, reCatL [reM, reOpt reOacc, reLit "dul", reOpt (reChar 'o'),
       reStar (reC rgWS), rePlus (reC rgDigit), rePlus (reC rgSep),
       .grp (.seq (rePlus (reC rgLetter))
                  (.rep 1 (some 3) true (.seq (reC rgUWS) (rePlus (reC rgLetter))))),
       reOpt (.seq (rePlus (reC rgSep)) (rePlus (reC rgDigit)))]),
    (false, reCatL ([reM, reOpt reOacc, reLit "dul", reOpt (reChar 'o'),
       reStar (reC rgWS), rePlus (reC rgDigit), rePlus (reC rgSep),
       .grp (.rep 4 none false (reC rgLetterWS))] ++ tailNumDotExt)),
    (true, .grp (reCatL [rePlus (reC rgLetter), rePlus (reC rgSep), rePlus (reC rgLetter)])),
    (true, .seq (.grp (.rep 3 none false (reC rgLetterWS))) (reC [(45, 45), (95, 95), (46, 46)])),
    (false, .seq (.grp (.rep 3 none false (reC rgLetterWS))) (.look ⟨rgDigit⟩)) ]

/-- `^[Mm][óo]?dulo?\s*\d+[_\s-]*` (case-insensitive), used with `re.sub`
to strip a leading module-number prelude from an extracted candidate. -/
def reModPre : RE :=
  reCatL [reM, reOpt reOacc, reLit "dul", reOpt (reChar 'o'), reStar (reC rgWS),
          rePlus (reC rgDigit), reStar (reC rgSep)]

def subModPre (s : String) : String :=
  match searchSplit true reModPre true none s.toList with
  | some (_, _, rest, _) => String.mk rest
  | none => s

/-- `[_\s-]*\d+[_\s-]*$`, used with `re.sub` to strip trailing numbers. -/
def reTrailNum : RE :=
  reCatL [reStar (reC rgSep), rePlus (reC rgDigit), reStar (reC rgSep), .eos]

def subTrailNum (s : String) : String :=
  match searchSplit false reTrailNum false none s.toList with
  | some (pre, _, rest, _) => String.mk (pre ++ rest)
  | none => s

def palabras_invalidas : List String :=
  ["modulo", "módulo", "dulo", "ejercicio", "tarea", "test"]

/-- The validity test applied to a cleaned filename-extracted candidate
(lines 156-159 of `adaptive_scanner.py`). -/
def step4Accept (name : String) : Bool :=
  name.length > 2
    && !(palabras_invalidas.any (fun w => w == pyLower name))
    && !(["modulo", "módulo", "dulo"].any
          (fun w => charsInside w.toList (pyLower name).toList))
    && !(palabras_invalidas.contains (pyLower name))

/-- Candidate extraction and cleanup for one step-4 pattern. -/
def step4Candidate (filename : String) (p : Bool × RE) : Option String :=
  match searchSplit true p.2 p.1 none filename.toList with
  | some (_, _, _, some g) =>
    let name := pyTrim (replaceChar '-' ' ' (replaceChar '_' ' ' (String.mk g)))
    let name := subModPre name
    let name := subTrailNum name
    some (pyTrim name)
  | _ => none

/-- Transliteration applied when synthesizing a placeholder email:
`.lower()` then `' '→'.'`, `ñ→n`, `á→a`, `é→e`, `í→i`, `ó→o`, `ú→u`.
The chained single-char `str.replace` calls have disjoint targets and
outputs, so they collapse to one character map. -/
def placeholderEmailName (name : String) : String :=
  replaceChar 'ú' 'u' (replaceChar 'ó' 'o' (replaceChar 'í' 'i' (replaceChar 'é' 'e'
    (replaceChar 'á' 'a' (replaceChar 'ñ' 'n' (replaceChar ' ' '.' (pyLower name)))))))

/-- One iteration of the step-4 pattern loop: extract, clean, validate,
normalize spaces and synthesize the `@extracted.temp` placeholder email. -/
def step4Try (filename : String) (p : Bool × RE) : Option (String × String) :=
  match step4Candidate filename p with
  | some name =>
    if step4Accept name then
      let name := joinSpace (pyWords name)
      some (name, placeholderEmailName name ++ "@extracted.temp")
    else none
  | none => none

structure DriveUser where
  emailAddress : Option String := none
  displayName : Option String := none
deriving DecidableEq

/-- The Google Drive file metadata fields read by the scanner and the DAO.
`size` abstracts Python's `int(file_data.get('size', 0))`. -/
structure FileData where
  id : Option String := none
  name : Option String := none
  mimeType : Option String := none
  size : Option Nat := none
  createdTime : Option String := none
  modifiedTime : Option String := none
  lastModifyingUser : Option DriveUser := none
  owners : List DriveUser := []
deriving DecidableEq

/-- Steps 1 and 2 share this logic verbatim in the source: accept any
email containing `@`; prefer a filename-extracted name longer than 3
characters, else the display name, else the email's local part. -/
def metadataCandidate (filename : String) (u : DriveUser) : Option (String × String) :=
  let email := u.emailAddress.getD ""
  let display_name := u.displayName.getD ""
  if email ≠ "" ∧ email.toList.contains '@' then
    let name :=
      match extract_name_from_filename filename with
      | some b =>
        if b.length > 3 then b
        else if display_name ≠ "" then display_name else localPart email
      | none => if display_name ≠ "" then display_name else localPart email
    some (name, email)
  else none

/-- `AdaptiveModuleScanner.identify_student_from_file`: the ordered
cascade (metadata last-modifying user, first owner, email in filename,
filename name patterns), first success wins. -/
def identify_student_from_file (fd : FileData) : Option (String × String) :=
  let filename := fd.name.getD ""
  match (match fd.lastModifyingUser with
         | some u => metadataCandidate filename u
         | none => none) with
  | some r => some r
  | none =>
    match (match fd.owners with
           | u :: _ => metadataCandidate filename u
           | [] => none) with
    | some r => some r
    | none =>
      match searchSplit false reEmail false none filename.toList with
      | some (_, m, _, _) =>
        let email := String.mk m
        some (localPart email, email)
      | none => name_patterns.findSome? (step4Try filename)

/-! ## Schema catalog and statement builder (`AdaptiveDatabaseDAO`) -/

/-- The discovered schema: table name to ordered column-name list
(`table_schemas[t]['column_names']`). -/
def Schema := List (String × List String)

/-- `self.table_schemas.get(t, {}).get('column_names', [])`. -/
def columnsOf (schema : Schema) (t : String) : List String :=
  (List.lookup t schema).getD []

/-- An assignment on the right-hand side of `ON CONFLICT ... DO UPDATE SET`. -/
inductive UpdExpr where
  /-- `EXCLUDED.<col>` -/
  | excluded (col : String)
  /-- `NOW()` -/
  | now
deriving DecidableEq

/-- Structured form of the SQL text built by `_build_insert_query` and
post-processed by the entity methods (`query.replace('RETURNING id', ...)`
textually appends the conflict clause). -/
structure InsertQuery (α : Type) where
  table : String
  columns : List String
  values : List α
  conflictTarget : Option String := none
  conflictSets : List (String × UpdExpr) := []
deriving DecidableEq

/-- The filtering loop of `_build_insert_query`: keep, in mapping order,
the fields whose key is a known column and whose value is not null. -/
def collectInsert (available : List String) : List (String × Option α) → List String × List α
  | [] => ([], [])
  | (c, v?) :: rest =>
    let tail := collectInsert available rest
    match v? with
    | some v => if available.contains c then (c :: tail.1, v :: tail.2) else tail
    | none => tail

/-- `AdaptiveDatabaseDAO._build_insert_query`. -/
def build_insert_query (schema : Schema) (table : String)
    (data : List (String × Option α)) : Except String (InsertQuery α) :=
  match List.lookup table schema with
  | none => .error ("Tabla " ++ table ++ " no encontrada en schema")
  | some available =>
    let cv := collectInsert available data
    if cv.1.isEmpty then
      .error ("No hay columnas válidas para insertar en " ++ table)
    else .ok { table := table, columns := cv.1, values := cv.2 }

/-- A field survives the filtering: its key is a known column and its
value is non-null. -/
def keepField (available : List String) (cv : String × Option α) : Bool :=
  available.contains cv.1 && cv.2.isSome

/-! ## Student creation (`AdaptiveDatabaseDAO.create_student`) -/

/-- `AdaptiveDatabaseDAO.create_student`: build the insert for
`{'full_name': name, 'email': email}` and, when an `email` column exists
and the email is non-empty and contains `@`, append
`ON CONFLICT (email) DO UPDATE SET full_name = EXCLUDED.full_name,
updated_at = NOW()`. -/
def create_student (schema : Schema) (name email : String) :
    Except String (InsertQuery String) :=
  let student_data : List (String × Option String) :=
    [("full_name", some name), ("email", some email)]
  let student_columns := columnsOf schema "students"
  if student_columns.contains "email" ∧ email ≠ "" ∧ email.toList.contains '@' then
    (build_insert_query schema "students" student_data).map (fun q =>
      { q with conflictTarget := some "email",
               conflictSets := [("full_name", .excluded "full_name"),
                                ("updated_at", .now)] })
  else
    build_insert_query schema "students" student_data

/-- The value the statement inserts for column `c`. -/
def insertedValue (q : InsertQuery α) (c : String) : Option α :=
  List.lookup c (q.columns.zip q.values)

/-- A stored row of the `students` table (the columns the statement
touches). -/
structure StudentRow where
  rowId : Nat
  full_name : String
  email : String
deriving DecidableEq

/-- Apply one `SET` assignment of the student conflict clause to a row;
assignments to columns outside the modelled row (e.g. `updated_at`) leave
it unchanged. -/
def applyStudentSet (ins : String → Option String) (r : StudentRow) :
    String × UpdExpr → StudentRow
  | ("full_name", .excluded c) => { r with full_name := (ins c).getD r.full_name }
  | ("email", .excluded c) => { r with email := (ins c).getD r.email }
  | _ => r

/-- PostgreSQL semantics of executing the built insert against a
`students` table whose unique key is `email`: with an
`ON CONFLICT (email) DO UPDATE` clause, a row with the same email is
updated per the clause's assignments instead of a new row being added. -/
def execStudentInsert (q : InsertQuery String) (newId : Nat)
    (tbl : List StudentRow) : List StudentRow :=
  let name := (insertedValue q "full_name").getD ""
  let email := (insertedValue q "email").getD ""
  if q.conflictTarget = some "email" ∧ tbl.any (fun r => r.email = email) then
    tbl.map (fun r =>
      if r.email = email then q.conflictSets.foldl (applyStudentSet (insertedValue q)) r
      else r)
  else tbl ++ [⟨newId, name, email⟩]

/-! ## Submission creation (`AdaptiveDatabaseDAO.create_submission`) -/

/-- A column value of the `submissions` insert. `mb` abstracts
`round(size_bytes / (1024*1024), 2)` (floating point is not modelled);
`time` is an abstract timestamp. -/
inductive Val where
  | str (s : String)
  | nat (n : Nat)
  | time (t : Nat)
  | mb (bytes : Nat)
deriving DecidableEq

/-- `file_extension` derivation for a non-empty filename (lines 273-278):
last `'.'`-separated piece lower-cased and capped at 50 chars, `unknown`
if that piece is empty, `noext` when the name has no dot. -/
def fileExtension (fname : String) : String :=
  if fname.toList.contains '.' then
    let ext := pyLower (String.mk ((splitOnChar '.' fname.toList).getLastD []))
    if ext = "" then "unknown" else String.mk (ext.toList.take 50)
  else "noext"

/-- `AdaptiveDatabaseDAO._parse_drive_timestamp`: empty/absent strings
give null, otherwise the (abstracted, fallible) `dateutil` parse. -/
def parse_drive_timestamp (parseTime : String → Option Nat) :
    Option String → Option Nat
  | none => none
  | some s => if s = "" then none else parseTime s

/-- The caller-side textual `query.replace('RETURNING id', 'ON CONFLICT
(file_id) DO UPDATE SET ...')` of `create_submission`, applied only when
a `file_id` column was discovered. -/
def addSubmissionConflict (cols : List String) (q : InsertQuery Val) :
    InsertQuery Val :=
  if cols.contains "file_id" then
    { q with conflictTarget := some "file_id",
             conflictSets := [("filename", .excluded "filename"),
                              ("size_bytes", .excluded "size_bytes"),
                              ("modified_time", .excluded "modified_time"),
                              ("detected_at", .now)] }
  else q

/-- `AdaptiveDatabaseDAO.create_submission`: the mapping from Drive file
metadata to `submissions` columns, filtered to the discovered columns,
passed through `_build_insert_query`, and, when a `file_id` column
exists, extended with `ON CONFLICT (file_id) DO UPDATE SET
filename = EXCLUDED.filename, size_bytes = EXCLUDED.size_bytes,
modified_time = EXCLUDED.modified_time, detected_at = NOW()`. -/
def create_submission (schema : Schema) (parseTime : String → Option Nat)
    (now : Nat) (module_id student_id : String) (fd : FileData) :
    Except String (InsertQuery Val) :=
  let size_bytes : Nat := fd.size.getD 0
  let drive1 : List (String × Option Val) :=
    [("file_id", fd.id.map .str),
     ("filename", fd.name.map .str),
     ("mime_type", fd.mimeType.map .str),
     ("size_bytes", some (.nat size_bytes)),
     ("drive_url", some (.str ("https://drive.google.com/file/d/" ++
        fd.id.getD "None" ++ "/view"))),
     ("created_time", (parse_drive_timestamp parseTime fd.createdTime).map .time),
     ("modified_time", (parse_drive_timestamp parseTime fd.modifiedTime).map .time),
     ("detected_at", some (.time now))]
  let drive2 := drive1 ++
    (match fd.lastModifyingUser with
     | some u => [("uploaded_by_email", u.emailAddress.map .str)]
     | none => [])
  let drive3 := drive2 ++
    (match fd.owners with
     | o :: _ => [("owner_email", o.emailAddress.map .str)]
     | [] => [])
  let drive4 := drive3 ++
    (if size_bytes ≠ 0 then [("size_mb", some (.mb size_bytes))] else [])
  let drive5 := drive4 ++
    (match fd.name with
     | some fname =>
       if fname = "" then []
       else [("file_extension", some (.str (fileExtension fname)))]
     | none => [])
  let submission_columns := columnsOf schema "submissions"
  let submission_data : List (String × Option Val) :=
    [("module_id", some (.str module_id)), ("student_id", some (.str student_id))]
      ++ drive5.filter (fun cv => submission_columns.contains cv.1)
  (build_insert_query schema "submissions" submission_data).map
    (addSubmissionConflict submission_columns)

/-- PostgreSQL semantics of the conflict clause's `SET` list on an
existing row viewed as a column-to-value map: a column named in the list
takes its assigned value (`EXCLUDED.<c>` is the value the rejected insert
proposed for `c`), every other column keeps its stored value. -/
def applyConflictSets (ins : String → Option Val) (now : Nat)
    (sets : List (String × UpdExpr)) (r : String → Option Val) :
    String → Option Val :=
  fun c =>
    match List.lookup c sets with
    | some (.excluded c') => ins c'
    | some .now => some (.time now)
    | none => r c

/-! ## Sync log update (`AdaptiveDatabaseDAO.update_sync_log`) -/

inductive UVal where
  | str (s : String)
  | nat (n : Nat)
  | time (t : Nat)
deriving DecidableEq

/-- Structured form of the `UPDATE sync_logs SET ... WHERE id = %s`
statement. -/
structure UpdateStmt where
  table : String
  sets : List (String × UVal)
  whereId : String
deriving DecidableEq

/-- The per-field guard of `update_sync_log`'s loop: keep an optional
field when it exists in the discovered columns and its value is not null. -/
def keepSet (cols : List String) (fv : String × Option UVal) :
    Option (String × UVal) :=
  match fv.2 with
  | some v => if cols.contains fv.1 then some (fv.1, v) else none
  | none => none

/-- `AdaptiveDatabaseDAO.update_sync_log`: always set `status`; set each
optional field only when it exists in the discovered columns and its
value is not null; `completed_at` gets `NOW()` only for the statuses
`completed` and `failed` (null otherwise, hence dropped). -/
def update_sync_log (schema : Schema) (now : Nat) (sync_id status : String)
    (files_processed errcount : Option Nat) (error_details : Option String) :
    UpdateStmt :=
  let sync_columns := columnsOf schema "sync_logs"
  let optional_fields : List (String × Option UVal) :=
    [("files_processed", files_processed.map .nat),
     ("errors", errcount.map .nat),
     ("error_details", error_details.map .str),
     ("completed_at",
       if status = "completed" ∨ status = "failed" then some (.time now) else none)]
  { table := "sync_logs",
    sets := ("status", .str status) :: optional_fields.filterMap (keepSet sync_columns),
    whereId := sync_id }

/-! ## Connection-scoped transactions (`AdaptiveDatabaseDAO.get_connection`)

The `@contextmanager get_connection` wraps its body in
`try: yield; commit / except: rollback; raise / finally: close`.
The store is explicit state `σ`; the body maps the state to a result and
a tentatively written state; commit keeps the written state, rollback
restores the entry state. -/

inductive ConnEvent where
  | commit
  | rollback
  | close
deriving DecidableEq

def get_connection {σ α : Type} (body : σ → Except String α × σ) (s : σ) :
    Except String α × σ × List ConnEvent :=
  match body s with
  | (.ok a, s') => (.ok a, s', [.commit, .close])
  | (.error e, _) => (.error e, s, [.rollback, .close])

/-! ## Scan orchestration (`AdaptiveModuleScanner`)

The orchestrator's external collaborators (Drive listings, the DAO calls)
are inputs: a `ScanEnv` supplies the outcome of `create_sync_log`, the
errors `sync_modules_to_db` accumulated, the per-module file outcomes
(or the module-level failure message `scan_module_smart` would report),
and the store's response to each attempted `update_sync_log` call. -/

/-- What happened to one file inside `scan_module_smart`'s loop:
skipped as unidentified, failed at `create_student`, failed at
`create_submission`, failed with a generic per-file exception, or fully
processed (with whether the student counted as new). -/
inductive FileOutcome where
  | unidentified
  | studentError (msg : String)
  | submissionError (msg : String)
  | fileError (msg : String)
  | processed (newStudent : Bool)
deriving DecidableEq

/-- The result dict of `scan_module_smart` (counts and per-file errors). -/
structure ModuleScanResult where
  files_found : Nat
  files_processed : Nat
  students_created : Nat
  submissions_created : Nat
  errors : List String
deriving DecidableEq

/-- The per-file loop of `scan_module_smart` (lines 283-341): identity
failures are skipped silently; student/submission errors are recorded and
the file skipped; generic per-file exceptions are recorded and the file
still counted as processed; the module itself never fails because of a
file. -/
def scan_module_smart (files : List FileOutcome) : ModuleScanResult :=
  files.foldl (fun acc f =>
    match f with
    | .unidentified => acc
    | .studentError m => { acc with errors := acc.errors ++ [m] }
    | .submissionError m => { acc with errors := acc.errors ++ [m] }
    | .fileError m =>
      { acc with errors := acc.errors ++ [m],
                 files_processed := acc.files_processed + 1 }
    | .processed newS =>
      { acc with files_processed := acc.files_processed + 1,
                 submissions_created := acc.submissions_created + 1,
                 students_created := acc.students_created + (if newS then 1 else 0) })
    { files_found := files.length, files_processed := 0, students_created := 0,
      submissions_created := 0, errors := [] }

/-- The `error_details` JSON payload passed to `update_sync_log`,
abstracted structurally: a bounded sample of run errors
(`json.dumps({"errors": errors[:3]})`) or a run-level failure
(`json.dumps({"error": msg, "timestamp": ...})`). -/
inductive ErrDetail where
  | sample (errs : List String)
  | runError (msg : String)
deriving DecidableEq

/-- One attempted `update_sync_log` call with its keyword arguments. -/
structure UpdateCall where
  sync_id : String
  status : String
  files_processed : Option Nat := none
  errcount : Option Nat := none
  error_details : Option ErrDetail := none
deriving DecidableEq

/-- The collaborators of one `full_adaptive_scan` run. `modules` is the
combined outcome of `get_all_modules` plus each module's scan: `.error`
if `get_all_modules` throws, otherwise per module either the file
outcomes or the error message of a module-level failure. `update` is the
store's response to an attempted `update_sync_log`. -/
structure ScanEnv where
  createSyncLog : Except String String
  syncErrors : List String
  modules : Except String (List (Except String (List FileOutcome)))
  update : UpdateCall → Except String Unit

/-- The aggregate counters of `full_results`. -/
structure FullResults where
  sync_id : String
  modules_scanned : Nat
  total_files : Nat
  total_submissions : Nat
  total_students : Nat
  errors : List String
deriving DecidableEq

/-- What `full_adaptive_scan` hands back: its results dict or the
`{'error': msg}` dict of the outer except block. -/
inductive ScanReturn where
  | results (r : FullResults)
  | errorDict (msg : String)
deriving DecidableEq

/-- The except block of `full_adaptive_scan` when `sync_id` is in scope
(lines 441-449): attempt to mark the run `failed`; the attempt is not
guarded, so if the store throws again that exception escapes the
function. -/
def scanFailPath (env : ScanEnv) (sync_id e : String) (prior : List UpdateCall) :
    Except String ScanReturn × List UpdateCall :=
  let msg := "Error en escaneo completo: " ++ e
  let c2 : UpdateCall :=
    { sync_id := sync_id, status := "failed", error_details := some (.runError msg) }
  match env.update c2 with
  | .ok _ => (.ok (.errorDict msg), prior ++ [c2])
  | .error e2 => (.error e2, prior ++ [c2])

/-- Folding one module's outcome into `full_results` (lines 387-412):
a scanned module adds its counts (its per-file errors are only counted
inside `module_details`, not appended to `full_results['errors']`);
a module-level failure appends its message to `full_results['errors']`. -/
def foldModule (acc : FullResults) : Except String (List FileOutcome) → FullResults
  | .ok files =>
    let r := scan_module_smart files
    { acc with modules_scanned := acc.modules_scanned + 1,
               total_files := acc.total_files + r.files_found,
               total_submissions := acc.total_submissions + r.submissions_created,
               total_students := acc.total_students + r.students_created }
  | .error em => { acc with errors := acc.errors ++ [em] }

/-- `AdaptiveModuleScanner.full_adaptive_scan`, returning the function's
outcome (`.error` = an exception escapes it) and the list of attempted
`update_sync_log` calls. -/
def full_adaptive_scan (env : ScanEnv) :
    Except String ScanReturn × List UpdateCall :=
  match env.createSyncLog with
  | .error e =>
    (.ok (.errorDict ("Error en escaneo completo: " ++ e)), [])
  | .ok sync_id =>
    match env.modules with
    | .error e => scanFailPath env sync_id e []
    | .ok mods =>
      let a := mods.foldl foldModule
        { sync_id := sync_id, modules_scanned := 0, total_files := 0,
          total_submissions := 0, total_students := 0, errors := env.syncErrors }
      let status := if a.errors.isEmpty then "completed" else "completed_with_errors"
      let c1 : UpdateCall :=
        { sync_id := sync_id, status := status,
          files_processed := some a.total_files,
          errcount := some a.errors.length,
          error_details :=
            if a.errors.isEmpty then none else some (.sample (a.errors.take 3)) }
      match env.update c1 with
      | .ok _ => (.ok (.results a), [c1])
      | .error e => scanFailPath env sync_id e [c1]

/-! ## C1: statement-builder filtering -/

lemma collectInsert_eq {α : Type} (available : List String)
    (data : List (String × Option α)) :
    collectInsert available data =
      ((data.filter (keepField available)).map Prod.fst,
       (data.filter (keepField available)).filterMap Prod.snd) := by
  induction data with
  | nil => rfl
  | cons cv rest ih =>
    obtain ⟨c, v?⟩ := cv
    cases v? with
    | none => simpa [collectInsert, keepField] using ih
    | some v =>
      by_cases hc : c ∈ available <;>
        simp [collectInsert, keepField, hc, ih, List.filter_cons]

/-- C1: for every table and candidate field-value mapping, the insert
builder keeps exactly the mapping's keys that are discovered columns with
non-null values, in mapping order with values aligned positionally, and
errors exactly when the table is unknown or no field survives. -/
theorem insert_builder_filtering {α : Type} (schema : Schema) (table : String)
    (data : List (String × Option α)) :
    (∀ available, List.lookup table schema = some available →
      (∀ q, build_insert_query schema table data = .ok q →
        q.columns = (data.filter (keepField available)).map Prod.fst ∧
        q.values = (data.filter (keepField available)).filterMap Prod.snd ∧
        q.conflictTarget = none) ∧
      ((∃ e, build_insert_query schema table data = .error e) ↔
        data.filter (keepField available) = [])) ∧
    (List.lookup table schema = none →
      ∃ e, build_insert_query schema table data = .error e) := by
  constructor
  · intro available hav
    have hb : build_insert_query schema table data =
        (if ((data.filter (keepField available)).map Prod.fst).isEmpty then
          .error ("No hay columnas válidas para insertar en " ++ table)
        else .ok { table := table,
                   columns := (data.filter (keepField available)).map Prod.fst,
                   values := (data.filter (keepField available)).filterMap Prod.snd }) := by
      simp only [build_insert_query, hav]
      rw [collectInsert_eq]
    by_cases hempty : data.filter (keepField available) = []
    · rw [hb, hempty]
      constructor
      · intro q hq
        simp at hq
      · simp
    · have hne : ¬ ((data.filter (keepField available)).map Prod.fst).isEmpty := by
        simp [List.isEmpty_iff, hempty]
      rw [hb, if_neg hne]
      constructor
      · intro q hq
        cases hq
        exact ⟨rfl, rfl, rfl⟩
      · constructor
        · rintro ⟨e, he⟩
          cases he
        · intro h
          exact absurd h hempty
  · intro hnone
    refine ⟨"Tabla " ++ table ++ " no encontrada en schema", ?_⟩
    simp [build_insert_query, hnone]

def c1Schema : Schema := [("modules", ["id", "name", "code"])]

def c1Data : List (String × Option String) :=
  [("name", some "Modulo 3"), ("bogus_field", some "y"), ("code", none)]

def c1Query : InsertQuery String :=
  { table := "modules", columns := ["name"], values := ["Modulo 3"] }

/-- Witness for C1 at a concrete schema and mapping: the unknown field
and the null-valued field are dropped, the surviving column/value pair is
returned. -/
theorem insert_builder_filtering_witness :
    c1Query.columns = ["name"] ∧ c1Query.values = ["Modulo 3"] :=
  have h := ((insert_builder_filtering c1Schema "modules" c1Data).1
    ["id", "name", "code"] rfl).1 c1Query rfl
  ⟨h.1.trans (by decide), h.2.1.trans (by decide)⟩

/-! ## C7: connection-scoped transactional unit -/

/-- C7: every store interaction run through `get_connection` commits on
success, and on any exception rolls the state back to the entry state (no
partial writes), re-raising the triggering error; the connection is
closed on both exit paths. -/
theorem connection_unit_of_work {σ α : Type} (body : σ → Except String α × σ)
    (s : σ) :
    (∀ a s', body s = (.ok a, s') →
      get_connection body s = (.ok a, s', [.commit, .close])) ∧
    (∀ e s', body s = (.error e, s') →
      get_connection body s = (.error e, s, [.rollback, .close])) ∧
    ConnEvent.close ∈ (get_connection body s).2.2 := by
  refine ⟨?_, ?_, ?_⟩
  · intro a s' h
    simp [get_connection, h]
  · intro e s' h
    simp [get_connection, h]
  · unfold get_connection
    rcases body s with ⟨r, s'⟩
    cases r <;> simp

/-- Witness for C7: a body that tentatively increments the store and then
fails leaves the store unchanged, propagates its error, and the
connection is rolled back and closed. -/
theorem connection_unit_of_work_witness :
    get_connection (fun n : Nat => ((Except.error "boom" : Except String Unit), n + 1)) 0 =
      (Except.error "boom", 0, [ConnEvent.rollback, ConnEvent.close]) :=
  (connection_unit_of_work
    (fun n : Nat => ((Except.error "boom" : Except String Unit), n + 1)) 0).2.1
    "boom" 1 rfl

/-! ## C10: `completed_at` is only written for terminal statuses
`completed` and `failed` -/

lemma lookup_cons_skip {β : Type} (k a : String) (b : β) (l : List (String × β))
    (h : (k == a) = false) :
    List.lookup k ((a, b) :: l) = List.lookup k l := by
  simp [List.lookup, h]

lemma lookup_cons_self {β : Type} (k : String) (b : β) (l : List (String × β)) :
    List.lookup k ((k, b) :: l) = some b := by
  simp [List.lookup]

lemma lookup_keepSet_skip (cols : List String) (k c : String) (v? : Option UVal)
    (rest : List (String × Option UVal)) (h : (k == c) = false) :
    List.lookup k (((c, v?) :: rest).filterMap (keepSet cols)) =
      List.lookup k (rest.filterMap (keepSet cols)) := by
  cases v? with
  | none => rfl
  | some v =>
    by_cases hc : c ∈ cols
    · rw [show List.filterMap (keepSet cols) ((c, some v) :: rest) =
          (c, v) :: List.filterMap (keepSet cols) rest from by
        simp [List.filterMap_cons, keepSet, hc]]
      exact lookup_cons_skip k c v _ h
    · simp [List.filterMap_cons, keepSet, hc]

lemma lookup_keepSet_none (cols : List String) (c : String)
    (rest : List (String × Option UVal)) :
    List.lookup c (((c, (none : Option UVal)) :: rest).filterMap (keepSet cols)) =
      List.lookup c (rest.filterMap (keepSet cols)) := rfl

lemma lookup_keepSet_found (cols : List String) (k : String) (v : UVal)
    (rest : List (String × Option UVal)) (h : cols.contains k = true) :
    List.lookup k (((k, some v) :: rest).filterMap (keepSet cols)) = some v := by
  have h' : k ∈ cols := by simpa using h
  rw [show List.filterMap (keepSet cols) ((k, some v) :: rest) =
      (k, v) :: List.filterMap (keepSet cols) rest from by
    simp [List.filterMap_cons, keepSet, h']]
  exact lookup_cons_self k v _

/-- C10: an `update_sync_log` call ending a run with status
`completed_with_errors` updates `status` and (when the columns exist and
values are supplied) the `files_processed`/`errors` counters, but leaves
`completed_at` unset; `completed_at` is assigned `NOW()` exactly for the
statuses `completed` and `failed`. -/
theorem sync_log_completed_at_scope (schema : Schema) (now : Nat)
    (sync_id : String) (fp ec : Option Nat) (det : Option String) :
    List.lookup "completed_at"
      (update_sync_log schema now sync_id "completed_with_errors" fp ec det).sets
      = none ∧
    List.lookup "status"
      (update_sync_log schema now sync_id "completed_with_errors" fp ec det).sets
      = some (.str "completed_with_errors") ∧
    (∀ n, fp = some n →
      (columnsOf schema "sync_logs").contains "files_processed" = true →
      List.lookup "files_processed"
        (update_sync_log schema now sync_id "completed_with_errors" fp ec det).sets
        = some (.nat n)) ∧
    (∀ n, ec = some n →
      (columnsOf schema "sync_logs").contains "errors" = true →
      List.lookup "errors"
        (update_sync_log schema now sync_id "completed_with_errors" fp ec det).sets
        = some (.nat n)) ∧
    (∀ st, st ≠ "completed" → st ≠ "failed" →
      List.lookup "completed_at"
        (update_sync_log schema now sync_id st fp ec det).sets = none) ∧
    ((columnsOf schema "sync_logs").contains "completed_at" = true →
      List.lookup "completed_at"
        (update_sync_log schema now sync_id "completed" fp ec det).sets
        = some (.time now)) := by
  have hgen : ∀ st : String, st ≠ "completed" → st ≠ "failed" →
      List.lookup "completed_at"
        (update_sync_log schema now sync_id st fp ec det).sets = none := by
    intro st h1 h2
    have hcond : ¬ (st = "completed" ∨ st = "failed") := by
      rintro (h | h) <;> [exact h1 h; exact h2 h]
    simp only [update_sync_log, if_neg hcond]
    rw [lookup_cons_skip "completed_at" "status" _ _ (by decide),
        lookup_keepSet_skip _ "completed_at" "files_processed" _ _ (by decide),
        lookup_keepSet_skip _ "completed_at" "errors" _ _ (by decide),
        lookup_keepSet_skip _ "completed_at" "error_details" _ _ (by decide),
        lookup_keepSet_none _ _ _]
    rfl
  refine ⟨hgen "completed_with_errors" (by decide) (by decide), ?_, ?_, ?_, hgen, ?_⟩
  · simp only [update_sync_log]
    rw [lookup_cons_self]
  · rintro n rfl hcol
    simp only [update_sync_log, Option.map]
    rw [lookup_cons_skip "files_processed" "status" _ _ (by decide),
        lookup_keepSet_found _ _ _ _ hcol]
  · rintro n rfl hcol
    simp only [update_sync_log, Option.map]
    rw [lookup_cons_skip "errors" "status" _ _ (by decide),
        lookup_keepSet_skip _ "errors" "files_processed" _ _ (by decide),
        lookup_keepSet_found _ _ _ _ hcol]
  · intro hcol
    simp only [update_sync_log, eq_self_iff_true, true_or, if_true]
    rw [lookup_cons_skip "completed_at" "status" _ _ (by decide),
        lookup_keepSet_skip _ "completed_at" "files_processed" _ _ (by decide),
        lookup_keepSet_skip _ "completed_at" "errors" _ _ (by decide),
        lookup_keepSet_skip _ "completed_at" "error_details" _ _ (by decide),
        lookup_keepSet_found _ _ _ _ hcol]

def c10Schema : Schema :=
  [("sync_logs", ["id", "sync_type", "status", "started_at", "completed_at",
                  "files_processed", "errors", "error_details"])]

/-- Witness for C10: a concrete `completed_with_errors` update carries the
counters but no `completed_at`, while the same call with `completed` does
set `completed_at`. -/
theorem sync_log_completed_at_scope_witness :
    List.lookup "completed_at"
      (update_sync_log c10Schema 7 "S1" "completed_with_errors" (some 4) (some 2)
        (some "d")).sets = none ∧
    List.lookup "files_processed"
      (update_sync_log c10Schema 7 "S1" "completed_with_errors" (some 4) (some 2)
        (some "d")).sets = some (.nat 4) ∧
    List.lookup "completed_at"
      (update_sync_log c10Schema 7 "S1" "completed" (some 4) (some 2)
        (some "d")).sets = some (.time 7) :=
  have h := sync_log_completed_at_scope c10Schema 7 "S1" (some 4) (some 2) (some "d")
  ⟨h.1, h.2.2.1 4 rfl (by decide), h.2.2.2.2.2 (by decide)⟩

/-! ## C3: module code generation

The number-extraction regex is `[Mm]odulo?\s*(\d+)`, which does not match
the accented spelling `Módulo`; an accented name therefore falls through
to the 4-letter alphabetic fallback. -/

/-- C3 counterexample: the claim says the name `Módulo 7` generates
`MOD07`, but the code's regex misses the accented `ó`, no special keyword
matches, and the alphabetic fallback on `Mdulo` yields `MDUL`. -/
theorem module_code_accent_counterexample :
    generate_module_code "Módulo 7" = "MDUL" ∧
    generate_module_code "Módulo 7" ≠ "MOD07" := by
  constructor <;> decide

/-- C3 (amended): code generation is deterministic with the three-step
rule, but the module-number rule only fires for the unaccented spelling:
`Modulo 7` gives `MOD07` (zero-padded), while accented `Módulo 7` falls
to the alphabetic fallback `MDUL`; `Correcciones Finales` hits the
keyword table giving `CORR`; `xyz123` takes the first 4 alphabetic
characters upper-cased (`XYZ`); a name with no alphabetic characters
takes the generic default `MOD0`. -/
theorem module_code_generation :
    generate_module_code "Modulo 7" = "MOD07" ∧
    generate_module_code "Módulo 7" = "MDUL" ∧
    generate_module_code "Correcciones Finales" = "CORR" ∧
    generate_module_code "xyz123" = "XYZ" ∧
    generate_module_code "123!" = "MOD0" := by
  refine ⟨?_, ?_, ?_, ?_, ?_⟩ <;> decide

/-! ## C8: stoplist rejection of the module preamble

The validity check (adaptive_scanner.py lines 156-159) tests *equality*
against all six stoplist words but *containment* only against
`modulo`/`módulo`/`dulo`; a candidate that merely contains one of
`ejercicio`/`tarea`/`test` passes it. -/

/-- C8 counterexample: the filename `Test_Uno.jpg` (no metadata) extracts
the candidate `Test Uno`, which contains the stoplist word `test`, yet
identity resolution accepts it — so it is not the case that every
candidate containing a stoplist word is rejected. -/
theorem stoplist_containment_counterexample :
    identify_student_from_file { name := some "Test_Uno.jpg" } =
      some ("Test Uno", "test.uno@extracted.temp") ∧
    charsInside "test".toList (pyLower "Test Uno").toList = true ∧
    "test" ∈ palabras_invalidas := by
  refine ⟨?_, ?_, ?_⟩ <;> decide

/-- C8 (amended): the filename `Modulo7_01.jpg` with no usable metadata
resolves to "not identified" rather than to the stoplist word `Modulo`;
a filename-extracted candidate is rejected when it case-insensitively
*equals* any of the six stoplist words, and when it *contains*
`modulo`/`módulo`/`dulo`; containment of `ejercicio`/`tarea`/`test` alone
is not checked. -/
theorem stoplist_rejection :
    identify_student_from_file { name := some "Modulo7_01.jpg" } = none ∧
    (∀ nm : String, pyLower nm ∈ palabras_invalidas → step4Accept nm = false) ∧
    (∀ nm : String,
      (["modulo", "módulo", "dulo"].any
        (fun w => charsInside w.toList (pyLower nm).toList)) = true →
      step4Accept nm = false) := by
  refine ⟨by decide, ?_, ?_⟩
  · intro nm h
    have ha : (palabras_invalidas.any (fun w => w == pyLower nm)) = true :=
      List.any_eq_true.mpr ⟨pyLower nm, h, by simp⟩
    unfold step4Accept
    rw [ha]
    simp
  · intro nm h
    unfold step4Accept
    rw [h]
    simp

/-- Witness for C8's general parts: the candidate `Tarea` equals a
stoplist word and the candidate `Modulo` (which pattern 7 extracts from
`Modulo7_01.jpg`) contains one of the module words; both are rejected. -/
theorem stoplist_rejection_witness :
    step4Accept "Tarea" = false ∧ step4Accept "Modulo" = false :=
  ⟨stoplist_rejection.2.1 "Tarea" (by decide),
   stoplist_rejection.2.2 "Modulo" (by decide)⟩

/-! ## C2: metadata email outranks filename email -/

/-- C2: whenever the file metadata carries a last-modifying user whose
email contains `@` (and even when the filename itself contains an
email-shaped string), the resolved email is the metadata email: cascade
step 1 wins and no later rule runs. -/
theorem metadata_outranks_filename_email (fd : FileData) (u : DriveUser)
    (e : String)
    (hu : fd.lastModifyingUser = some u)
    (he : u.emailAddress = some e)
    (hne : e ≠ "")
    (hat : e.toList.contains '@' = true)
    (_hfn : (searchSplit false reEmail false none (fd.name.getD "").toList).isSome = true) :
    (identify_student_from_file fd).map Prod.snd = some e := by
  have hat' : '@' ∈ e.data := by simpa using hat
  simp only [identify_student_from_file, metadataCandidate, hu, he]
  simp [hne, hat']

def c2User : DriveUser :=
  { emailAddress := some "meta@school.edu", displayName := some "Meta User" }

def c2File : FileData :=
  { name := some "Modulo1_pepe@mail.com.jpg", lastModifyingUser := some c2User }

/-- Witness for C2: a file whose name embeds `pepe@mail.com` but whose
metadata names `meta@school.edu` resolves to the metadata email. -/
theorem metadata_outranks_filename_email_witness :
    (identify_student_from_file c2File).map Prod.snd = some "meta@school.edu" :=
  metadata_outranks_filename_email c2File c2User "meta@school.edu" rfl rfl
    (by decide) (by decide) (by decide)

/-! ## C4: submission upsert updates only the observational fields -/

lemma except_map_ok {ε α β : Type} (f : α → β) (x : Except ε α) (b : β)
    (h : x.map f = .ok b) : ∃ a, x = .ok a ∧ b = f a := by
  cases x with
  | error e => simp [Except.map] at h
  | ok a => exact ⟨a, rfl, by simpa [Except.map] using h.symm⟩

/-- C4: whenever a `file_id` column was discovered, the statement built by
`create_submission` carries `ON CONFLICT (file_id) DO UPDATE` whose `SET`
list assigns exactly `filename`, `size_bytes`, `modified_time` and
`detected_at`; applying it to an existing row leaves `module_id`,
`student_id` and `file_id` unchanged whatever values the incoming mapping
proposed for them, while the four observational fields take the incoming
values (`detected_at` takes `NOW()`). -/
theorem submission_upsert_field_scope (schema : Schema)
    (parseTime : String → Option Nat) (now : Nat) (mid sid : String)
    (fd : FileData) (q : InsertQuery Val)
    (hfid : (columnsOf schema "submissions").contains "file_id" = true)
    (hok : create_submission schema parseTime now mid sid fd = .ok q) :
    q.conflictTarget = some "file_id" ∧
    q.conflictSets = [("filename", .excluded "filename"),
                      ("size_bytes", .excluded "size_bytes"),
                      ("modified_time", .excluded "modified_time"),
                      ("detected_at", .now)] ∧
    (∀ (ins r : String → Option Val) (t : Nat),
      applyConflictSets ins t q.conflictSets r "module_id" = r "module_id" ∧
      applyConflictSets ins t q.conflictSets r "student_id" = r "student_id" ∧
      applyConflictSets ins t q.conflictSets r "file_id" = r "file_id") ∧
    (∀ (ins r : String → Option Val) (t : Nat),
      applyConflictSets ins t q.conflictSets r "filename" = ins "filename" ∧
      applyConflictSets ins t q.conflictSets r "size_bytes" = ins "size_bytes" ∧
      applyConflictSets ins t q.conflictSets r "modified_time" = ins "modified_time" ∧
      applyConflictSets ins t q.conflictSets r "detected_at" = some (.time t)) := by
  unfold create_submission at hok
  obtain ⟨q0, _, rfl⟩ := except_map_ok _ _ _ hok
  unfold addSubmissionConflict
  rw [if_pos hfid]
  refine ⟨rfl, rfl, ?_, ?_⟩ <;> intro ins r t <;>
    refine ⟨?_, ?_, ?_⟩ <;> simp [applyConflictSets, List.lookup]

def c4Schema : Schema :=
  [("submissions", ["id", "module_id", "student_id", "file_id", "filename",
                    "size_bytes", "modified_time", "detected_at"])]

def c4File : FileData := { id := some "F123", name := some "a.jpg", size := some 10 }

def c4Row : String → Option Val :=
  fun c =>
    if c = "module_id" then some (.str "mOld")
    else if c = "student_id" then some (.str "sOld")
    else if c = "file_id" then some (.str "F123")
    else if c = "size_bytes" then some (.nat 3)
    else none

def c4Ins : String → Option Val :=
  fun c =>
    if c = "module_id" then some (.str "mNew")
    else if c = "student_id" then some (.str "sNew")
    else if c = "size_bytes" then some (.nat 10)
    else none

def c4Query : InsertQuery Val :=
  { table := "submissions",
    columns := ["module_id", "student_id", "file_id", "filename", "size_bytes",
                "detected_at"],
    values := [.str "m1", .str "s1", .str "F123", .str "a.jpg", .nat 10, .time 5],
    conflictTarget := some "file_id",
    conflictSets := [("filename", .excluded "filename"),
                     ("size_bytes", .excluded "size_bytes"),
                     ("modified_time", .excluded "modified_time"),
                     ("detected_at", .now)] }

/-- Witness for C4: re-detecting file id `F123` with a mapping that holds
different module/student values updates `size_bytes` but leaves the
stored `module_id`, `student_id` and `file_id` untouched. -/
theorem submission_upsert_field_scope_witness :
    applyConflictSets c4Ins 9 c4Query.conflictSets c4Row "module_id"
      = c4Row "module_id" ∧
    applyConflictSets c4Ins 9 c4Query.conflictSets c4Row "student_id"
      = c4Row "student_id" ∧
    applyConflictSets c4Ins 9 c4Query.conflictSets c4Row "file_id"
      = c4Row "file_id" ∧
    applyConflictSets c4Ins 9 c4Query.conflictSets c4Row "size_bytes"
      = c4Ins "size_bytes" :=
  have h := submission_upsert_field_scope c4Schema (fun _ => none) 5 "m1" "s1"
    c4File c4Query (by decide) rfl
  ⟨(h.2.2.1 c4Ins c4Row 9).1, (h.2.2.1 c4Ins c4Row 9).2.1,
   (h.2.2.1 c4Ins c4Row 9).2.2, (h.2.2.2 c4Ins c4Row 9).2.1⟩

/-! ## C5: student creation upserts on email -/

/-- C5: when the students table has an `email` column and the email
contains `@`, `create_student` builds an `ON CONFLICT (email) DO UPDATE`
statement that inserts the email it was given; executing it against a
table already holding that email updates that row's full name in place
(same row count), leaves other rows alone, and preserves uniqueness of
emails; the proof also needs the discovered `full_name` column the
statement writes through. -/
theorem student_email_upsert (schema : Schema) (name email : String)
    (q : InsertQuery String)
    (hcol : (columnsOf schema "students").contains "email" = true)
    (hncol : (columnsOf schema "students").contains "full_name" = true)
    (hne : email ≠ "") (hat : email.toList.contains '@' = true)
    (hok : create_student schema name email = .ok q) :
    q.conflictTarget = some "email" ∧
    q.conflictSets = [("full_name", .excluded "full_name"), ("updated_at", .now)] ∧
    insertedValue q "email" = some email ∧
    (∀ (tbl : List StudentRow) (newId : Nat),
      ((tbl.map (fun r => r.email)).Nodup →
        ((execStudentInsert q newId tbl).map (fun r => r.email)).Nodup) ∧
      (tbl.any (fun r => r.email = email) = true →
        (execStudentInsert q newId tbl).length = tbl.length ∧
        (∀ r ∈ tbl, r.email = email →
          { r with full_name := name } ∈ execStudentInsert q newId tbl) ∧
        (∀ r ∈ tbl, r.email ≠ email → r ∈ execStudentInsert q newId tbl))) := by
  obtain ⟨avail, hl, hce, hcf⟩ :
      ∃ avail, List.lookup "students" schema = some avail ∧
        avail.contains "email" = true ∧ avail.contains "full_name" = true := by
    unfold columnsOf at hcol hncol
    cases hl : List.lookup "students" schema with
    | none => rw [hl] at hcol; simp at hcol
    | some avail => rw [hl] at hcol hncol; exact ⟨avail, rfl, hcol, hncol⟩
  have hce' : "email" ∈ avail := by simpa using hce
  have hcf' : "full_name" ∈ avail := by simpa using hcf
  have hq : q = { table := "students", columns := ["full_name", "email"],
                  values := [name, email], conflictTarget := some "email",
                  conflictSets := [("full_name", .excluded "full_name"),
                                   ("updated_at", .now)] } := by
    unfold create_student at hok
    rw [if_pos ⟨by unfold columnsOf; rw [hl]; exact hce, hne, hat⟩] at hok
    unfold build_insert_query at hok
    rw [hl] at hok
    simp [collectInsert, hce', hcf', Except.map] at hok
    exact hok.symm
  subst hq
  refine ⟨rfl, rfl, by simp [insertedValue, List.lookup], ?_⟩
  intro tbl newId
  have h1 : (insertedValue
      ({ table := "students", columns := ["full_name", "email"],
         values := [name, email], conflictTarget := some "email",
         conflictSets := [("full_name", .excluded "full_name"),
                          ("updated_at", .now)] } : InsertQuery String) "email").getD ""
      = email := by simp [insertedValue, List.lookup]
  have h2 : (insertedValue
      ({ table := "students", columns := ["full_name", "email"],
         values := [name, email], conflictTarget := some "email",
         conflictSets := [("full_name", .excluded "full_name"),
                          ("updated_at", .now)] } : InsertQuery String) "full_name").getD ""
      = name := by simp [insertedValue, List.lookup]
  by_cases hany : tbl.any (fun r => r.email = email) = true
  · have hexec : execStudentInsert
        { table := "students", columns := ["full_name", "email"],
          values := [name, email], conflictTarget := some "email",
          conflictSets := [("full_name", .excluded "full_name"),
                           ("updated_at", .now)] } newId tbl =
        tbl.map (fun r =>
          if r.email = email then { r with full_name := name } else r) := by
      simp only [execStudentInsert, h1, h2]
      rw [if_pos ⟨trivial, hany⟩]
      apply List.map_congr_left
      intro r _
      by_cases hre : r.email = email
      · simp [hre, applyStudentSet, insertedValue, List.lookup]
      · simp [hre]
    constructor
    · intro hnd
      have hmm : (tbl.map (fun r =>
          if r.email = email then { r with full_name := name } else r)).map
            (fun r => r.email) = tbl.map (fun r => r.email) := by
        rw [List.map_map]
        apply List.map_congr_left
        intro r _
        by_cases hre : r.email = email <;> simp [Function.comp, hre]
      rw [hexec, hmm]
      exact hnd
    · intro _
      refine ⟨by rw [hexec, List.length_map], ?_, ?_⟩
      · intro r hr hre
        rw [hexec]
        exact List.mem_map.mpr ⟨r, hr, by simp [hre]⟩
      · intro r hr hre
        rw [hexec]
        exact List.mem_map.mpr ⟨r, hr, by simp [hre]⟩
  · have hexec : execStudentInsert
        { table := "students", columns := ["full_name", "email"],
          values := [name, email], conflictTarget := some "email",
          conflictSets := [("full_name", .excluded "full_name"),
                           ("updated_at", .now)] } newId tbl =
        tbl ++ [⟨newId, name, email⟩] := by
      simp only [execStudentInsert, h1, h2]
      rw [if_neg (fun hc => hany hc.2)]
    constructor
    · intro hnd
      rw [hexec, List.map_append]
      have hnotin : email ∉ tbl.map (fun r => r.email) := by
        intro hmem
        obtain ⟨r, hr, hre⟩ := List.mem_map.mp hmem
        exact hany (List.any_eq_true.mpr ⟨r, hr, by simp [hre]⟩)
      simp [List.nodup_append, hnd, hnotin]
    · intro hany'
      exact absurd hany' hany

def c5Schema : Schema := [("students", ["id", "full_name", "email", "updated_at"])]

def c5Query : InsertQuery String :=
  { table := "students", columns := ["full_name", "email"],
    values := ["Ana Nueva", "ana@mail.com"], conflictTarget := some "email",
    conflictSets := [("full_name", .excluded "full_name"), ("updated_at", .now)] }

def c5Table : List StudentRow :=
  [⟨1, "Ana Vieja", "ana@mail.com"⟩, ⟨2, "Bob", "bob@mail.com"⟩]

/-- Witness for C5: re-resolving `ana@mail.com` with a new name keeps the
row count and email uniqueness and updates that row's name in place. -/
theorem student_email_upsert_witness :
    ((execStudentInsert c5Query 3 c5Table).map (fun r => r.email)).Nodup ∧
    (execStudentInsert c5Query 3 c5Table).length = c5Table.length ∧
    (⟨1, "Ana Nueva", "ana@mail.com"⟩ : StudentRow) ∈ execStudentInsert c5Query 3 c5Table :=
  have h := student_email_upsert c5Schema "Ana Nueva" "ana@mail.com" c5Query
    (by decide) (by decide) (by decide) (by decide) rfl
  have h4 := (h.2.2.2) c5Table 3
  ⟨h4.1 (by decide), (h4.2 (by decide)).1,
   (h4.2 (by decide)).2.1 ⟨1, "Ana Vieja", "ana@mail.com"⟩ (by decide) rfl⟩

/-! ## C6: run terminal status

`full_adaptive_scan` decides the terminal status from
`full_results['errors']`, which accumulates only module-sync errors and
module-level failures; the per-file errors a scanned module collected in
its own result dict are never appended there, so a run whose only errors
are per-file ends `completed`. -/

/-- The module-level error message, if the module's scan failed. -/
def modErr : Except String (List FileOutcome) → Option String
  | .error e => some e
  | .ok _ => none

lemma foldModule_errors (mods : List (Except String (List FileOutcome)))
    (a0 : FullResults) :
    (mods.foldl foldModule a0).errors = a0.errors ++ mods.filterMap modErr := by
  induction mods generalizing a0 with
  | nil => simp
  | cons m rest ih =>
    cases m with
    | ok files => simp [List.foldl_cons, foldModule, ih, modErr, List.filterMap_cons]
    | error e =>
      simp [List.foldl_cons, foldModule, ih, modErr, List.filterMap_cons,
            List.append_assoc]

/-- C6 counterexample: a run whose single module scans successfully but
records one per-file error has at least one per-file error, yet its
terminal status is `completed`, not `completed_with_errors` as the claim
requires. -/
theorem run_terminal_status_counterexample :
    (scan_module_smart [.submissionError "Error submission f1: boom"]).errors =
      ["Error submission f1: boom"] ∧
    (full_adaptive_scan
      { createSyncLog := .ok "S1", syncErrors := [],
        modules := .ok [.ok [.submissionError "Error submission f1: boom"]],
        update := fun _ => .ok () }).2.map (fun c => c.status) = ["completed"] := by
  constructor <;> rfl

/-- C6 (amended): the terminal status is decided by the accumulated
module-sync and module-level errors only: zero such errors end the run
`completed` (even when files inside scanned modules errored), at least
one ends it `completed_with_errors`; and when SyncRun creation itself
throws, no update is ever attempted and the failure is reported to the
caller. -/
theorem run_terminal_status :
    (∀ (env : ScanEnv) (sid : String)
       (mods : List (Except String (List FileOutcome))),
      env.createSyncLog = .ok sid → env.modules = .ok mods →
      ((full_adaptive_scan env).2.head?).map (fun c => c.status) =
        some (if env.syncErrors ++ mods.filterMap modErr = [] then "completed"
              else "completed_with_errors")) ∧
    (∀ (env : ScanEnv) (e : String), env.createSyncLog = .error e →
      full_adaptive_scan env =
        (.ok (.errorDict ("Error en escaneo completo: " ++ e)), [])) := by
  constructor
  · intro env sid mods hcs hmods
    have herrs := foldModule_errors mods
      { sync_id := sid, modules_scanned := 0, total_files := 0,
        total_submissions := 0, total_students := 0, errors := env.syncErrors }
    simp only [full_adaptive_scan, hcs, hmods, herrs]
    generalize env.syncErrors ++ List.filterMap modErr mods = E
    cases E with
    | nil =>
      simp only [List.isEmpty_nil, if_true]
      split
      · simp
      · simp only [scanFailPath]
        split <;> simp
    | cons x xs =>
      simp only [List.isEmpty_cons, Bool.false_eq_true, if_false]
      split
      · simp
      · simp only [scanFailPath]
        split <;> simp
  · intro env e hcs
    simp [full_adaptive_scan, hcs]

def c6EnvClean : ScanEnv :=
  { createSyncLog := .ok "S1", syncErrors := [],
    modules := .ok [.ok [.processed true]], update := fun _ => .ok () }

def c6EnvModErr : ScanEnv :=
  { createSyncLog := .ok "S2", syncErrors := [],
    modules := .ok [.error "Error escaneando módulo M: boom"],
    update := fun _ => .ok () }

def c6EnvNoRun : ScanEnv :=
  { createSyncLog := .error "insert failed", syncErrors := [],
    modules := .ok [], update := fun _ => .ok () }

/-- Witness for C6 (amended) at three concrete runs: a clean run ends
`completed`, a run with one module-level error ends
`completed_with_errors`, and a run whose SyncRun creation throws attempts
no update and returns the error dict. -/
theorem run_terminal_status_witness :
    ((full_adaptive_scan c6EnvClean).2.head?).map (fun c => c.status) =
      some "completed" ∧
    ((full_adaptive_scan c6EnvModErr).2.head?).map (fun c => c.status) =
      some "completed_with_errors" ∧
    full_adaptive_scan c6EnvNoRun =
      (.ok (.errorDict "Error en escaneo completo: insert failed"), []) :=
  ⟨(run_terminal_status.1 c6EnvClean "S1" [.ok [.processed true]] rfl rfl).trans
      (by decide),
   (run_terminal_status.1 c6EnvModErr "S2" [.error "Error escaneando módulo M: boom"]
      rfl rfl).trans (by decide),
   run_terminal_status.2 c6EnvNoRun "insert failed" rfl⟩

/-! ## C9: secondary failure while marking the run failed -/

/-- C9 counterexample: with the module listing throwing `db down` and the
store rejecting every update, `full_adaptive_scan` ends with the
secondary error `update exploded` escaping it; the original error dict is
never returned, so the secondary failure is not swallowed and masks the
original error. -/
theorem run_failure_masking_counterexample :
    (full_adaptive_scan
      { createSyncLog := .ok "S9", syncErrors := [], modules := .error "db down",
        update := fun _ => .error "update exploded" }).1 =
      .error "update exploded" ∧
    (full_adaptive_scan
      { createSyncLog := .ok "S9", syncErrors := [], modules := .error "db down",
        update := fun _ => .error "update exploded" }).1 ≠
      .ok (.errorDict "Error en escaneo completo: db down") := by
  refine ⟨rfl, ?_⟩
  intro h
  rw [show (full_adaptive_scan
      { createSyncLog := .ok "S9", syncErrors := [], modules := .error "db down",
        update := fun _ => .error "update exploded" }).1 =
      Except.error "update exploded" from rfl] at h
  exact Except.noConfusion h

/-- C9 (amended): on a run-level error (module listing throws after the
SyncRun was created) the orchestrator attempts exactly one best-effort
update marking the run `failed` with the error message; if that update
succeeds, the original error is reported to the caller in the returned
error dict; if the update itself throws, the secondary exception
propagates out of the orchestrator and masks the original error. -/
theorem run_failure_secondary_update (env : ScanEnv) (sid e : String)
    (hcs : env.createSyncLog = .ok sid) (hmods : env.modules = .error e) :
    (full_adaptive_scan env).2 =
      [{ sync_id := sid, status := "failed",
         error_details := some (.runError ("Error en escaneo completo: " ++ e)) }] ∧
    (env.update { sync_id := sid, status := "failed",
                  error_details :=
                    some (.runError ("Error en escaneo completo: " ++ e)) }
        = .ok () →
      (full_adaptive_scan env).1 =
        .ok (.errorDict ("Error en escaneo completo: " ++ e))) ∧
    (∀ e2, env.update { sync_id := sid, status := "failed",
                        error_details :=
                          some (.runError ("Error en escaneo completo: " ++ e)) }
        = .error e2 →
      (full_adaptive_scan env).1 = .error e2) := by
  simp only [full_adaptive_scan, hcs, hmods, scanFailPath]
  refine ⟨?_, ?_, ?_⟩
  · cases env.update _ <;> simp
  · intro hu
    rw [hu]
  · intro e2 hu
    rw [hu]

def c9EnvOk : ScanEnv :=
  { createSyncLog := .ok "S9", syncErrors := [], modules := .error "db down",
    update := fun _ => .ok () }

/-- Witness for C9 (amended): when the secondary update succeeds, the
caller receives the original run-level error. -/
theorem run_failure_secondary_update_witness :
    (full_adaptive_scan c9EnvOk).1 =
      .ok (.errorDict "Error en escaneo completo: db down") :=
  (run_failure_secondary_update c9EnvOk "S9" "db down" rfl rfl).2.1 rfl

end JeanAcademy
